import Mathlib

/-!
Verification model of the cross-exchange arbitrage engine
(`src/strategy/*.py`, `src/arbitrage.py`).

Decimal prices and sizes are modelled as rationals (`ℚ`).  Python's
`Decimal.quantize(Decimal('1'))` with the default context rounding
(ROUND_HALF_EVEN) is modelled by `roundHalfEven`; Python's `int()` conversion
by `pyInt` (truncation toward zero).  The `Decimal.sqrt` used only for the
observability statistics is kept abstract as a function parameter `dsqrt`.
-/

namespace CrossArb

/-- Truncation toward zero, the behaviour of Python `int(x)` on a number. -/
def pyInt (q : ℚ) : ℤ := if 0 ≤ q then ⌊q⌋ else -⌊-q⌋

/-- Round to the nearest integer with ties going to the even integer.  This is
the default rounding mode (ROUND_HALF_EVEN, banker's rounding) applied by
`Decimal.quantize(Decimal('1'))` in `OrderManager.round_to_tick`. -/
def roundHalfEven (q : ℚ) : ℤ :=
  let f : ℤ := ⌊q⌋
  let frac : ℚ := q - f
  if frac < 1/2 then f
  else if 1/2 < frac then f + 1
  else if f % 2 = 0 then f else f + 1

/-- Insert a value into an ascending-sorted list, keeping it sorted. -/
def insertSorted (x : ℚ) : List ℚ → List ℚ
  | [] => [x]
  | y :: ys => if x ≤ y then x :: y :: ys else y :: insertSorted x ys

/-- Ascending sort of a list of rationals, modelling Python `sorted(...)`. -/
def sortListQ (xs : List ℚ) : List ℚ := xs.foldr insertSorted []

/-! ### Dynamic threshold calculator (`src/strategy/dynamic_threshold.py`) -/

/-- Constructor arguments of `DynamicThresholdCalculator.__init__`. -/
structure DTConfig where
  window_size : ℕ
  update_interval : ℚ
  min_threshold : ℚ
  max_threshold : ℚ
  percentile : ℚ
deriving DecidableEq, Repr

/-- Mutable state of `DynamicThresholdCalculator`: the two bounded FIFOs of
spread samples (newest at the tail), the published thresholds, the last update
time and the observability statistics. -/
structure DTState where
  long_spreads : List ℚ
  short_spreads : List ℚ
  long_threshold : ℚ
  short_threshold : ℚ
  last_update_time : ℚ
  long_mean : ℚ
  long_std : ℚ
  short_mean : ℚ
  short_std : ℚ
deriving DecidableEq, Repr

/-- State directly after `DynamicThresholdCalculator.__init__`: empty deques,
both thresholds at `min_threshold`, statistics at zero. -/
def DTState.init (cfg : DTConfig) (now : ℚ) : DTState :=
  { long_spreads := []
    short_spreads := []
    long_threshold := cfg.min_threshold
    short_threshold := cfg.min_threshold
    last_update_time := now
    long_mean := 0
    long_std := 0
    short_mean := 0
    short_std := 0 }

/-- Append to a `collections.deque(maxlen=maxlen)`: push on the right and
evict from the left when the bound is exceeded. -/
def dequeAppend (maxlen : ℕ) (xs : List ℚ) (x : ℚ) : List ℚ :=
  let ys := xs ++ [x]
  if maxlen < ys.length then ys.drop (ys.length - maxlen) else ys

/-- Percentile pick of `_update_thresholds`:
`sorted(samples)[int(len(samples) * percentile)]`. -/
def percentilePick (p : ℚ) (xs : List ℚ) : ℚ :=
  (sortListQ xs).getD (pyInt ((xs.length : ℚ) * p)).toNat 0

/-- Mean of a sample list, `sum(xs) / len(xs)` (only ever used on lists of at
least 100 elements). -/
def sampleMean (xs : List ℚ) : ℚ := xs.sum / (xs.length : ℚ)

/-- Population variance of a sample list as computed in `_update_thresholds`. -/
def sampleVariance (xs : List ℚ) : ℚ :=
  ((xs.map fun x => (x - sampleMean xs) ^ 2).sum) / (xs.length : ℚ)

/-- Body of `DynamicThresholdCalculator._update_thresholds`.  With fewer than
100 long or short samples it returns early leaving every field unchanged;
otherwise it recomputes the percentile thresholds (clamped to the configured
band) and the mean/std statistics.  `dsqrt` abstracts `Decimal.sqrt`. -/
def updateThresholds (cfg : DTConfig) (dsqrt : ℚ → ℚ) (st : DTState) : DTState :=
  if st.long_spreads.length < 100 ∨ st.short_spreads.length < 100 then st
  else
    let newLong := percentilePick cfg.percentile st.long_spreads
    let lmean := sampleMean st.long_spreads
    let lvar := sampleVariance st.long_spreads
    let lstd := if 0 < lvar then dsqrt lvar else 0
    let newShort := percentilePick cfg.percentile st.short_spreads
    let smean := sampleMean st.short_spreads
    let svar := sampleVariance st.short_spreads
    let sstd := if 0 < svar then dsqrt svar else 0
    { st with
      long_threshold := max cfg.min_threshold (min cfg.max_threshold newLong)
      short_threshold := max cfg.min_threshold (min cfg.max_threshold newShort)
      long_mean := lmean
      long_std := lstd
      short_mean := smean
      short_std := sstd }

/-- The `add_spread_observation` method: append both samples, then recompute
thresholds when at least `update_interval` seconds have passed since the last
update. -/
def addSpreadObservation (cfg : DTConfig) (dsqrt : ℚ → ℚ) (st : DTState)
    (l s now : ℚ) : DTState :=
  let st1 : DTState :=
    { st with
      long_spreads := dequeAppend cfg.window_size st.long_spreads l
      short_spreads := dequeAppend cfg.window_size st.short_spreads s }
  if cfg.update_interval ≤ now - st1.last_update_time then
    { updateThresholds cfg dsqrt st1 with last_update_time := now }
  else st1

/-- The `force_update` method: recompute thresholds immediately and stamp the
update time. -/
def forceUpdate (cfg : DTConfig) (dsqrt : ℚ → ℚ) (st : DTState) (now : ℚ) : DTState :=
  { updateThresholds cfg dsqrt st with last_update_time := now }

/-- External events that can reach a `DynamicThresholdCalculator` after
construction (`get_thresholds`/`get_statistics` are read-only). -/
inductive DTOp
  | add (l s now : ℚ)
  | force (now : ℚ)
deriving Repr

/-- The state transition of one calculator event. -/
def dtStep (cfg : DTConfig) (dsqrt : ℚ → ℚ) (st : DTState) : DTOp → DTState
  | .add l s now => addSpreadObservation cfg dsqrt st l s now
  | .force now => forceUpdate cfg dsqrt st now

/-- Run a sequence of calculator events from a start state. -/
def dtRun (cfg : DTConfig) (dsqrt : ℚ → ℚ) (start : DTState) (ops : List DTOp) : DTState :=
  ops.foldl (dtStep cfg dsqrt) start

/-- Invariant carried by every reachable calculator state: the FIFOs never
exceed the window, and while either FIFO is below the warmup count of 100 both
published thresholds still sit at the configured minimum. -/
def DTInv (cfg : DTConfig) (st : DTState) : Prop :=
  st.long_spreads.length ≤ cfg.window_size ∧
  st.short_spreads.length ≤ cfg.window_size ∧
  ((st.long_spreads.length < 100 ∨ st.short_spreads.length < 100) →
    st.long_threshold = cfg.min_threshold ∧ st.short_threshold = cfg.min_threshold)

lemma dequeAppend_length (maxlen : ℕ) (xs : List ℚ) (x : ℚ) :
    (dequeAppend maxlen xs x).length = min (xs.length + 1) maxlen := by
  unfold dequeAppend
  have hlen : (xs ++ [x]).length = xs.length + 1 := by simp
  by_cases h : maxlen < (xs ++ [x]).length
  · rw [if_pos h, List.length_drop, hlen]
    rw [hlen] at h
    omega
  · rw [if_neg h, hlen]
    rw [hlen] at h
    omega

lemma updateThresholds_long_spreads (cfg : DTConfig) (dsqrt : ℚ → ℚ) (st : DTState) :
    (updateThresholds cfg dsqrt st).long_spreads = st.long_spreads := by
  unfold updateThresholds
  by_cases h : st.long_spreads.length < 100 ∨ st.short_spreads.length < 100
  · rw [if_pos h]
  · rw [if_neg h]

lemma updateThresholds_short_spreads (cfg : DTConfig) (dsqrt : ℚ → ℚ) (st : DTState) :
    (updateThresholds cfg dsqrt st).short_spreads = st.short_spreads := by
  unfold updateThresholds
  by_cases h : st.long_spreads.length < 100 ∨ st.short_spreads.length < 100
  · rw [if_pos h]
  · rw [if_neg h]

lemma updateThresholds_inv (cfg : DTConfig) (dsqrt : ℚ → ℚ) (st : DTState)
    (h : DTInv cfg st) : DTInv cfg (updateThresholds cfg dsqrt st) := by
  obtain ⟨h1, h2, h3⟩ := h
  unfold DTInv updateThresholds
  by_cases hc : st.long_spreads.length < 100 ∨ st.short_spreads.length < 100
  · rw [if_pos hc]
    exact ⟨h1, h2, h3⟩
  · rw [if_neg hc]
    exact ⟨h1, h2, fun hlt => absurd hlt hc⟩

lemma dtStep_inv (cfg : DTConfig) (dsqrt : ℚ → ℚ) (st : DTState) (op : DTOp)
    (h : DTInv cfg st) : DTInv cfg (dtStep cfg dsqrt st op) := by
  obtain ⟨h1, h2, h3⟩ := h
  cases op with
  | force now =>
      have := updateThresholds_inv cfg dsqrt st ⟨h1, h2, h3⟩
      obtain ⟨g1, g2, g3⟩ := this
      exact ⟨g1, g2, g3⟩
  | add l s now =>
      show DTInv cfg (addSpreadObservation cfg dsqrt st l s now)
      unfold addSpreadObservation
      set st1 : DTState :=
        { st with
          long_spreads := dequeAppend cfg.window_size st.long_spreads l
          short_spreads := dequeAppend cfg.window_size st.short_spreads s } with hst1
      have hl : st1.long_spreads.length = min (st.long_spreads.length + 1) cfg.window_size := by
        rw [hst1]; exact dequeAppend_length _ _ _
      have hs : st1.short_spreads.length = min (st.short_spreads.length + 1) cfg.window_size := by
        rw [hst1]; exact dequeAppend_length _ _ _
      have hinv1 : DTInv cfg st1 := by
        refine ⟨by omega, by omega, ?_⟩
        intro hlt
        have : st.long_spreads.length < 100 ∨ st.short_spreads.length < 100 := by
          rcases hlt with hlt | hlt
          · rw [hl] at hlt; left; omega
          · rw [hs] at hlt; right; omega
        have := h3 this
        rw [hst1]
        exact this
      by_cases ht : cfg.update_interval ≤ now - st1.last_update_time
      · simp only [ht, if_true]
        have := updateThresholds_inv cfg dsqrt st1 hinv1
        obtain ⟨g1, g2, g3⟩ := this
        exact ⟨g1, g2, g3⟩
      · simp only [ht, if_false]
        exact hinv1

lemma dtRun_inv (cfg : DTConfig) (dsqrt : ℚ → ℚ) (start : DTState) (ops : List DTOp)
    (h : DTInv cfg start) : DTInv cfg (dtRun cfg dsqrt start ops) := by
  induction ops generalizing start with
  | nil => exact h
  | cons op rest ih => exact ih _ (dtStep_inv cfg dsqrt start op h)

lemma dtInit_inv (cfg : DTConfig) (now : ℚ) : DTInv cfg (DTState.init cfg now) := by
  refine ⟨by simp [DTState.init], by simp [DTState.init], ?_⟩
  intro _
  exact ⟨rfl, rfl⟩

/-- The six published value fields of the calculator: both thresholds, both
means and both standard deviations (everything except the sample FIFOs and the
update timestamp). -/
def dtFields (st : DTState) : ℚ × ℚ × ℚ × ℚ × ℚ × ℚ :=
  (st.long_threshold, st.short_threshold, st.long_mean, st.long_std,
   st.short_mean, st.short_std)

lemma updateThresholds_field_idem (cfg : DTConfig) (dsqrt : ℚ → ℚ) (s : DTState) (t : ℚ) :
    dtFields (updateThresholds cfg dsqrt
      { updateThresholds cfg dsqrt s with last_update_time := t }) =
    dtFields (updateThresholds cfg dsqrt s) := by
  set s1 : DTState := { updateThresholds cfg dsqrt s with last_update_time := t } with hs1
  have hl : s1.long_spreads = s.long_spreads := by
    rw [hs1]
    exact updateThresholds_long_spreads cfg dsqrt s
  have hsh : s1.short_spreads = s.short_spreads := by
    rw [hs1]
    exact updateThresholds_short_spreads cfg dsqrt s
  by_cases hc : s.long_spreads.length < 100 ∨ s.short_spreads.length < 100
  · have e1 : updateThresholds cfg dsqrt s = s := by
      unfold updateThresholds; rw [if_pos hc]
    have hc1 : s1.long_spreads.length < 100 ∨ s1.short_spreads.length < 100 := by
      rw [hl, hsh]; exact hc
    have e2 : updateThresholds cfg dsqrt s1 = s1 := by
      unfold updateThresholds; rw [if_pos hc1]
    rw [e2, e1, hs1, e1]
    rfl
  · have hc1 : ¬(s1.long_spreads.length < 100 ∨ s1.short_spreads.length < 100) := by
      rw [hl, hsh]; exact hc
    unfold updateThresholds
    rw [if_neg hc, if_neg hc1]
    simp only [dtFields, updateThresholds_long_spreads, updateThresholds_short_spreads]

/-- C5.  Two consecutive `force_update` recomputations with no new spread
samples in between leave the published threshold state fixed: the thresholds,
means and standard deviations after the second call equal those after the
first call, for every calculator state, configuration and abstract square
root. -/
theorem dyn_threshold_recompute_idempotent (cfg : DTConfig) (dsqrt : ℚ → ℚ)
    (st : DTState) (t1 t2 : ℚ) :
    dtFields (forceUpdate cfg dsqrt (forceUpdate cfg dsqrt st t1) t2) =
    dtFields (forceUpdate cfg dsqrt st t1) :=
  updateThresholds_field_idem cfg dsqrt st t1

/-- C4.  In every state the calculator can reach from construction, if fewer
than 100 long or short spread samples have been observed then both published
thresholds equal the configured minimum threshold, whatever the observed
spreads and however many update intervals have elapsed. -/
theorem warmup_thresholds_stay_at_min (cfg : DTConfig) (dsqrt : ℚ → ℚ) (t0 : ℚ)
    (ops : List DTOp)
    (h : (dtRun cfg dsqrt (DTState.init cfg t0) ops).long_spreads.length < 100 ∨
         (dtRun cfg dsqrt (DTState.init cfg t0) ops).short_spreads.length < 100) :
    (dtRun cfg dsqrt (DTState.init cfg t0) ops).long_threshold = cfg.min_threshold ∧
    (dtRun cfg dsqrt (DTState.init cfg t0) ops).short_threshold = cfg.min_threshold :=
  (dtRun_inv cfg dsqrt _ ops (dtInit_inv cfg t0)).2.2 h

/-- Default configuration of the EdgeX bot's calculator (window 1000, update
interval 300 s, minimum 1.0, maximum 10.0, percentile 0.70). -/
def c4cfg : DTConfig :=
  { window_size := 1000, update_interval := 300, min_threshold := 1
    max_threshold := 10, percentile := 7/10 }

/-- A short concrete event history: one observation that triggers a recompute,
then a forced recompute. -/
def c4ops : List DTOp := [.add 5 3 400, .force 500]

/-- Witness for C4 at a concrete run of two events with one sample. -/
theorem warmup_thresholds_stay_at_min_witness :
    ((dtRun c4cfg id (DTState.init c4cfg 0) c4ops).long_spreads.length < 100 ∨
     (dtRun c4cfg id (DTState.init c4cfg 0) c4ops).short_spreads.length < 100) ∧
    ((dtRun c4cfg id (DTState.init c4cfg 0) c4ops).long_threshold = c4cfg.min_threshold ∧
     (dtRun c4cfg id (DTState.init c4cfg 0) c4ops).short_threshold = c4cfg.min_threshold) := by
  have hrun : (dtRun c4cfg id (DTState.init c4cfg 0) c4ops).long_spreads = [5] := by
    norm_num [dtRun, dtStep, c4ops, c4cfg, addSpreadObservation, forceUpdate,
      updateThresholds, dequeAppend, DTState.init]
  have h : (dtRun c4cfg id (DTState.init c4cfg 0) c4ops).long_spreads.length < 100 ∨
      (dtRun c4cfg id (DTState.init c4cfg 0) c4ops).short_spreads.length < 100 := by
    left; rw [hrun]; norm_num
  exact ⟨h, warmup_thresholds_stay_at_min c4cfg id 0 c4ops h⟩

/-! ### Order manager (`src/strategy/order_manager.py`) -/

/-- The hedge-preparation fields of `OrderManager` that the order pipeline
reads, plus the execution flags used by the trade pipelines. -/
structure OrderManagerState where
  edgex_order_status : Option String
  edgex_client_order_id : String
  current_lighter_side : Option String
  current_lighter_quantity : Option ℚ
  current_lighter_price : Option ℚ
  waiting_for_lighter_fill : Bool
  lighter_order_filled : Bool
  order_execution_complete : Bool
deriving DecidableEq, Repr

/-- The `OrderManager.handle_edgex_order_update` method: derive the opposite
Lighter side, record the maker's filled size as the hedge quantity and raise
the waiting flag. -/
def omHandleEdgexOrderUpdate (st : OrderManagerState) (side : String)
    (filled_size price : ℚ) : OrderManagerState :=
  let lighter_side := if side = "buy" then "sell" else "buy"
  { st with
    current_lighter_side := some lighter_side
    current_lighter_quantity := some filled_size
    current_lighter_price := some price
    waiting_for_lighter_fill := true }

/-- The `OrderManager.round_to_tick` method:
`(price / tick).quantize(Decimal('1')) * tick`, with `quantize` using the
default context rounding ROUND_HALF_EVEN; with no tick configured the price
passes through. -/
def round_to_tick (tick : Option ℚ) (price : ℚ) : ℚ :=
  match tick with
  | none => price
  | some t => (roundHalfEven (price / t) : ℚ) * t

/-- The maker price of `OrderManager.place_bbo_order`: one tick inside the
spread (ask − tick for a buy, bid + tick for a sell), then rounded to the
tick. -/
def placeBboOrderPrice (tick best_bid best_ask : ℚ) (side : String) : ℚ :=
  let order_price := if side = "buy" then best_ask - tick else best_bid + tick
  round_to_tick (some tick) order_price

/-- An order submitted to Lighter by `place_lighter_market_order`: the
human-readable quantity and adjusted price as logged, and the wire-unit
integers actually passed to `sign_create_order`. -/
structure LighterOrder where
  side : String
  quantity : ℚ
  price : ℚ
  base_amount_raw : ℤ
  price_raw : ℤ
  is_ask : Bool
deriving DecidableEq, Repr

/-- The `OrderManager.place_lighter_market_order` method: price the IOC order
aggressively from the Lighter book (ask × 1.005 for a buy, bid × 0.995 for a
sell), keep the requested quantity, and scale both to wire units with the
market multipliers (`int(...)` truncation). -/
def placeLighterMarketOrder (baseMult priceMult bestBid bestAsk : ℚ)
    (lighter_side : String) (quantity _refPrice : ℚ) : LighterOrder :=
  let price := if lighter_side = "buy" then bestAsk * (1005/1000) else bestBid * (995/1000)
  { side := lighter_side
    quantity := quantity
    price := price
    base_amount_raw := pyInt (quantity * baseMult)
    price_raw := pyInt (price * priceMult)
    is_ask := if lighter_side = "buy" then false else true }

/-- The timeout test of `OrderManager.place_edgex_post_only_order`: the cancel
path fires once `time.time() - start_time > 5`; the number 5 is written
directly in the source and the configured `fill_timeout` (first parameter
here, carried by `EdgexArb`) is never consulted. -/
def edgexMakerTimeoutFires (_fill_timeout elapsed : ℚ) : Bool :=
  decide (5 < elapsed)

/-- The timeout test of the StandX maker wait loop in
`StandxArb._execute_trade`: `time.time() - wait_start > self.fill_timeout`. -/
def standxMakerTimeoutFires (fill_timeout elapsed : ℚ) : Bool :=
  decide (fill_timeout < elapsed)

/-! ### Bot order-update handlers
(`EdgexArb._handle_edgex_order_update` in `src/strategy/edgex_arb.py`,
`StandxArb._handle_standx_order_update` in `src/strategy/standx_arb.py`) -/

/-- One row appended to the trades CSV by `DataLogger.log_trade_to_csv`. -/
structure TradeLogRow where
  exchange : String
  side : String
  price : ℚ
  quantity : ℚ
deriving DecidableEq, Repr

/-- An EdgeX order update frame as read by
`EdgexArb._handle_edgex_order_update` (fields `contractId`, `clientOrderId`,
`id`, `status`, `side`, `cumMatchSize`, `size`, `price`). -/
structure EdgexOrderUpdate where
  contractId : String
  clientOrderId : String
  id : String
  status : String
  side : String
  cumMatchSize : ℚ
  size : ℚ
  price : ℚ
deriving DecidableEq, Repr

/-- The slice of `EdgexArb` state touched by the order-update handler: the
contract filter, the order manager, the cached positions, the position open
time and the trade CSV. -/
structure EdgexBotState where
  edgex_contract_id : String
  om : OrderManagerState
  edgex_position : ℚ
  lighter_position : ℚ
  position_open_time : Option ℚ
  trade_rows : List TradeLogRow
deriving DecidableEq, Repr

/-- Python truthiness of the stored `position_open_time` (a float or `None`). -/
def timeTruthy : Option ℚ → Bool
  | none => false
  | some t => decide (t ≠ 0)

/-- The `EdgexArb._handle_edgex_order_update` callback.  Updates for another
contract or another client order id return immediately.  A `CANCELED` status
with positive cumulative fill is rewritten to `FILLED`.  A fill updates the
cached EdgeX position, clears the position open time when the position
crosses zero, logs a CSV row for fills above 0.0001, and hands the filled
size to the order manager to arm the Lighter hedge. -/
def handleEdgexOrderUpdate (bot : EdgexBotState) (order : EdgexOrderUpdate) :
    EdgexBotState :=
  if order.contractId ≠ bot.edgex_contract_id then bot
  else if order.clientOrderId ≠ bot.om.edgex_client_order_id then bot
  else
    let filled_size := order.cumMatchSize
    let status := if order.status = "CANCELED" ∧ 0 < filled_size then "FILLED" else order.status
    let bot1 : EdgexBotState :=
      { bot with om := { bot.om with edgex_order_status := some status } }
    if status = "FILLED" ∧ 0 < filled_size then
      let bot2 : EdgexBotState :=
        if order.side = "buy" then
          let oldp := bot1.edgex_position
          let newp := oldp + filled_size
          { bot1 with
            edgex_position := newp
            position_open_time :=
              if oldp < 0 ∧ 0 ≤ newp ∧ timeTruthy bot1.position_open_time then none
              else bot1.position_open_time }
        else
          let oldp := bot1.edgex_position
          let newp := oldp - filled_size
          { bot1 with
            edgex_position := newp
            position_open_time :=
              if 0 < oldp ∧ newp ≤ 0 ∧ timeTruthy bot1.position_open_time then none
              else bot1.position_open_time }
      let bot3 : EdgexBotState :=
        if (1/10000 : ℚ) < filled_size then
          { bot2 with
            trade_rows := bot2.trade_rows ++
              [{ exchange := "edgeX", side := order.side, price := order.price,
                 quantity := filled_size }] }
        else bot2
      { bot3 with om := omHandleEdgexOrderUpdate bot3.om order.side filled_size order.price }
    else bot1

/-- A StandX order update frame as read by
`StandxArb._handle_standx_order_update` after its field-name normalisation
(`contract_id`/`symbol`, `cl_ord_id`, upper-cased `status`, `fill_qty`,
`qty`, `fill_avg_price`). -/
structure StandxOrderUpdate where
  contract_id : Option String
  order_id : String
  status : String
  side : String
  fill_qty : ℚ
  qty : ℚ
  price : ℚ
deriving DecidableEq, Repr

/-- The slice of `StandxArb` state touched by the order-update handler. -/
structure StandxBotState where
  standx_symbol : String
  current_order_id : Option String
  om : OrderManagerState
  standx_position : ℚ
  lighter_position : ℚ
  trade_rows : List TradeLogRow
deriving DecidableEq, Repr

/-- Python truthiness of the stored `current_order_id` (a string or `None`). -/
def orderIdTruthy : Option String → Bool
  | none => false
  | some s => decide (s ≠ "")

/-- The `StandxArb._handle_standx_order_update` callback.  Updates for another
contract return immediately.  A `CANCELED` status with positive fill is
rewritten to `FILLED`.  A fill for a stale order id (an active ticket exists
and the update names a different one) only updates the cached StandX position
and returns without arming a hedge; a fill for the active ticket updates the
position, logs a CSV row for fills above 0.0001 and arms the Lighter hedge. -/
def handleStandxOrderUpdate (bot : StandxBotState) (order : StandxOrderUpdate) :
    StandxBotState :=
  let proceed : Bool := match order.contract_id with
    | some cid => decide (cid = "" ∨ cid = bot.standx_symbol)
    | none => true
  if proceed = false then bot
  else
    let filled_size := order.fill_qty
    let status := if order.status = "CANCELED" ∧ 0 < filled_size then "FILLED" else order.status
    let bot1 : StandxBotState :=
      { bot with om := { bot.om with edgex_order_status := some status } }
    if status = "FILLED" ∧ 0 < filled_size then
      if orderIdTruthy bot1.current_order_id ∧
          some order.order_id ≠ bot1.current_order_id then
        if order.side = "buy" then
          { bot1 with standx_position := bot1.standx_position + filled_size }
        else
          { bot1 with standx_position := bot1.standx_position - filled_size }
      else
        let bot2 : StandxBotState :=
          if order.side = "buy" then
            { bot1 with standx_position := bot1.standx_position + filled_size }
          else
            { bot1 with standx_position := bot1.standx_position - filled_size }
        let bot3 : StandxBotState :=
          if (1/10000 : ℚ) < filled_size then
            { bot2 with
              trade_rows := bot2.trade_rows ++
                [{ exchange := "standx", side := order.side, price := order.price,
                   quantity := filled_size }] }
          else bot2
        { bot3 with om := omHandleEdgexOrderUpdate bot3.om order.side filled_size order.price }
    else bot1

/-! ### Trade pipeline (`EdgexArb._execute_long_trade` / `_execute_short_trade`) -/

/-- The hedge step of the trade pipeline's completion loop: while execution is
not complete and the stop flag is down, an armed `waiting_for_lighter_fill`
causes exactly one call to `place_lighter_market_order` with the stored hedge
side, quantity and reference price; otherwise no Lighter order is placed. -/
def executeTradeHedge (stop_flag : Bool) (baseMult priceMult bestBid bestAsk : ℚ)
    (om : OrderManagerState) : Option LighterOrder :=
  if om.order_execution_complete then none
  else if stop_flag then none
  else if om.waiting_for_lighter_fill then
    match om.current_lighter_side, om.current_lighter_quantity, om.current_lighter_price with
    | some side, some qty, some price =>
        some (placeLighterMarketOrder baseMult priceMult bestBid bestAsk side qty price)
    | _, _, _ => none
  else none

/-- Control-flow outcome of one `_execute_long_trade` call. -/
inductive PipelineOutcome
  | exitProcess (code : ℕ)
  | setStopFlag
  | returnNormal
  | proceedToHedge
deriving DecidableEq, Repr

/-- Control flow of `EdgexArb._execute_long_trade` up to the hedge step.  With
the stop flag down: a cached net position beyond twice the order quantity
calls `sys.exit(1)`; a price drift beyond tolerance aborts the trade; an
exception from the maker placement is caught, triggers the DEADLINE_EXCEEDED
reconciliation sub-flow where applicable, and then sets `self.stop_flag = True`
(shutting the engine down); an unfilled maker returns; a filled maker proceeds
to the hedge loop.  (`_execute_short_trade` has the same structure with the
opposite side.) -/
def executeLongTradeOutcome (stop_flag : Bool) (net_position order_quantity : ℚ)
    (price_moved_too_much : Bool) (maker_leg : Except String Bool) :
    PipelineOutcome :=
  if stop_flag then .returnNormal
  else if order_quantity * 2 < |net_position| then .exitProcess 1
  else if price_moved_too_much then .returnNormal
  else
    match maker_leg with
    | .error _ => .setStopFlag
    | .ok filled => if filled then .proceedToHedge else .returnNormal

/-! ### Main trading loop decision
(`EdgexArb.trading_loop` and `StandxArb.trading_loop`) -/

/-- What one iteration of a trading loop does after reading positions and the
two books: halt on a naked position (EdgeX variant only), dispatch a long or
short trade, skip because of the position limit, or sleep idle. -/
inductive LoopAction
  | nakedHalt
  | dispatchLong (expected_ask expected_lighter_bid : ℚ)
  | dispatchShort (expected_bid expected_lighter_ask : ℚ)
  | skippedLong
  | skippedShort
  | idleSleep
deriving DecidableEq, Repr

/-- One iteration of `EdgexArb.trading_loop` after the periodic position sync:
if the cached positions are same-signed beyond the 0.01 tolerance (and the net
therefore beyond 0.01), log the naked-position alarm, sleep 60 s and
`continue` without trading; otherwise compute the spreads (a falsy zero book
side gives spread 0), pick the long signal (strict threshold, position ≤ 0),
else the short signal (relaxed close threshold when long, strict when flat),
and dispatch, skip at the position limit, or sleep 10 ms. -/
def edgexLoopAction (edgex_pos lighter_pos ex_bid ex_ask lt_bid lt_ask
    long_threshold short_threshold close_multiplier min_close_spread
    max_position : ℚ) : LoopAction :=
  let net := edgex_pos + lighter_pos
  if (1/100 : ℚ) < |net| ∧
      ((edgex_pos < -(1/100) ∧ lighter_pos < -(1/100)) ∨
       ((1/100 : ℚ) < edgex_pos ∧ (1/100 : ℚ) < lighter_pos)) then
    .nakedHalt
  else
    let long_spread := if lt_bid ≠ 0 ∧ ex_bid ≠ 0 then lt_bid - ex_bid else 0
    let short_spread := if ex_ask ≠ 0 ∧ lt_ask ≠ 0 then ex_ask - lt_ask else 0
    let current := edgex_pos
    let short_close_threshold := max (short_threshold * close_multiplier) min_close_spread
    if lt_bid ≠ 0 ∧ ex_bid ≠ 0 ∧ long_threshold < long_spread ∧ current ≤ 0 then
      if current < max_position then .dispatchLong ex_ask lt_bid else .skippedLong
    else if ex_ask ≠ 0 ∧ lt_ask ≠ 0 ∧
        ((0 < current ∧ short_close_threshold < short_spread) ∨
         (current = 0 ∧ short_threshold < short_spread)) then
      if -max_position < current then .dispatchShort ex_bid lt_ask else .skippedShort
    else .idleSleep

/-- One iteration of `StandxArb.trading_loop`: invalid StandX quotes make the
loop sleep and retry; otherwise the long then short spread conditions are
checked against the strict thresholds and the position limit, and the trade is
dispatched.  The loop performs no naked-position check: the cached Lighter
position (second argument) is read only for logging. -/
def standxLoopAction (standx_pos _lighter_pos ex_bid ex_ask lt_bid lt_ask
    long_threshold short_threshold max_position : ℚ) : LoopAction :=
  if ex_bid ≤ 0 ∨ ex_ask ≤ 0 then .idleSleep
  else
    let long_spread := if lt_bid ≠ 0 ∧ ex_bid ≠ 0 then lt_bid - ex_bid else 0
    let short_spread := if ex_ask ≠ 0 ∧ lt_ask ≠ 0 then ex_ask - lt_ask else 0
    if lt_bid ≠ 0 ∧ ex_bid ≠ 0 ∧ long_threshold < long_spread then
      if standx_pos < max_position then .dispatchLong ex_ask lt_bid else .skippedLong
    else if ex_ask ≠ 0 ∧ lt_ask ≠ 0 ∧ short_threshold < short_spread then
      if -max_position < standx_pos then .dispatchShort ex_bid lt_ask else .skippedShort
    else .idleSleep

/-! ### Lighter position query
(`StandXPositionTracker.get_lighter_position` in
`src/strategy/standx_position_tracker.py`) -/

/-- Outcome of one HTTP attempt against `/api/v1/account`: an exception of one
of the three caught kinds, an empty body, a body without usable accounts, or a
position list of `(symbol, position, sign)` entries. -/
inductive LighterAttempt
  | netErr
  | jsonErr
  | otherErr
  | emptyBody
  | noAccounts
  | accounts (positions : List (String × ℚ × ℤ))
deriving DecidableEq, Repr

/-- Classifies the attempts that land in the `except` clauses. -/
def isErrAttempt : LighterAttempt → Bool
  | .netErr => true
  | .jsonErr => true
  | .otherErr => true
  | _ => false

/-- Result of the query: a position value, or process termination. -/
inductive FetchResult
  | value (v : ℚ)
  | exited (code : ℕ)
deriving DecidableEq, Repr

/-- The symbol scan over the returned positions: the first entry matching the
ticker yields `Decimal(position) * sign`. -/
def lookupPosition (ticker : String) : List (String × ℚ × ℤ) → Option ℚ
  | [] => none
  | (sym, pos, sign) :: rest =>
      if sym = ticker then some (pos * (sign : ℚ)) else lookupPosition ticker rest

/-- The retry loop of `get_lighter_position`, with `responses` giving the
result of each attempt by index.  Each loop iteration runs the `finally`
clause (`attempts += 1; await asyncio.sleep(1)`), counted in the second
component as accumulated sleep seconds.  An empty body or a response without
accounts returns the cached position; a position list ends the loop with the
looked-up value or 0 when the ticker is absent; a caught exception retries.
When `attempts` reaches 10 with no value obtained, the process exits with
code 1. -/
def getLighterPositionGo (ticker : String) (cached : ℚ)
    (responses : ℕ → LighterAttempt) :
    ℕ → ℕ → ℕ → FetchResult × ℕ
  | _attempts, 0, sleepAcc => (.exited 1, sleepAcc)
  | attempts, fuel + 1, sleepAcc =>
    match responses attempts with
    | .emptyBody => (.value cached, sleepAcc + 1)
    | .noAccounts => (.value cached, sleepAcc + 1)
    | .accounts ps =>
        match lookupPosition ticker ps with
        | some v => (.value v, sleepAcc + 1)
        | none => (.value 0, sleepAcc + 1)
    | _ => getLighterPositionGo ticker cached responses (attempts + 1) fuel (sleepAcc + 1)

/-- The `get_lighter_position` method: the retry loop starting at attempt 0
with the bound of 10 attempts.  The method never assigns any tracker field, so
the tracker state is untouched by construction and only the returned value
matters. -/
def getLighterPosition (ticker : String) (cached : ℚ)
    (responses : ℕ → LighterAttempt) : FetchResult × ℕ :=
  getLighterPositionGo ticker cached responses 0 10 0

/-! ### Theorems -/

lemma handleEdgexOrderUpdate_om_on_fill (bot : EdgexBotState) (u : EdgexOrderUpdate)
    (hc : u.contractId = bot.edgex_contract_id)
    (hk : u.clientOrderId = bot.om.edgex_client_order_id)
    (hstat : (if u.status = "CANCELED" ∧ 0 < u.cumMatchSize then "FILLED" else u.status)
      = "FILLED")
    (hf : 0 < u.cumMatchSize) :
    (handleEdgexOrderUpdate bot u).om =
      omHandleEdgexOrderUpdate { bot.om with edgex_order_status := some "FILLED" }
        u.side u.cumMatchSize u.price := by
  unfold handleEdgexOrderUpdate
  rw [if_neg (by simp [hc]), if_neg (by simp [hk])]
  simp only [hstat]
  rw [if_pos ⟨by simp, hf⟩]
  by_cases hside : u.side = "buy" <;>
    by_cases hq : (1/10000 : ℚ) < u.cumMatchSize <;>
    simp only [hside, hq, if_true, if_false, ite_true, ite_false]

/-- C1.  Whenever a maker order update reporting a fill for the active ticket
reaches the EdgeX bot, the Lighter hedge subsequently submitted by the trade
pipeline carries exactly the maker's cumulative filled size
(`cumMatchSize`) — both as the human-readable quantity and, scaled by the
market multiplier, as the wire amount — and not the originally requested
order size; a partial maker fill therefore hedges exactly the partially
filled amount. -/
theorem taker_size_equals_maker_filled (bot : EdgexBotState) (u : EdgexOrderUpdate)
    (baseMult priceMult bestBid bestAsk : ℚ)
    (hc : u.contractId = bot.edgex_contract_id)
    (hk : u.clientOrderId = bot.om.edgex_client_order_id)
    (hs : u.status = "FILLED" ∨ u.status = "CANCELED")
    (hf : 0 < u.cumMatchSize)
    (hdone : bot.om.order_execution_complete = false) :
    ∃ o, executeTradeHedge false baseMult priceMult bestBid bestAsk
        (handleEdgexOrderUpdate bot u).om = some o ∧
      o.quantity = u.cumMatchSize ∧
      o.base_amount_raw = pyInt (u.cumMatchSize * baseMult) ∧
      (u.cumMatchSize ≠ u.size → o.quantity ≠ u.size) := by
  have hstat : (if u.status = "CANCELED" ∧ 0 < u.cumMatchSize then "FILLED" else u.status)
      = "FILLED" := by
    rcases hs with h | h <;> simp [h, hf]
  rw [handleEdgexOrderUpdate_om_on_fill bot u hc hk hstat hf]
  simp only [executeTradeHedge, omHandleEdgexOrderUpdate]
  simp only [hdone]
  exact ⟨_, rfl, rfl, rfl, fun h => h⟩

/-- Concrete EdgeX bot state at the start of a pipeline run. -/
def c1bot : EdgexBotState :=
  { edgex_contract_id := "10000001"
    om := { edgex_order_status := none, edgex_client_order_id := "1700000000000"
            current_lighter_side := none, current_lighter_quantity := none
            current_lighter_price := none, waiting_for_lighter_fill := false
            lighter_order_filled := false, order_execution_complete := false }
    edgex_position := 0, lighter_position := 0
    position_open_time := none, trade_rows := [] }

/-- A partial maker fill: 0.04 filled of a 0.10 request. -/
def c1update : EdgexOrderUpdate :=
  { contractId := "10000001", clientOrderId := "1700000000000", id := "42"
    status := "FILLED", side := "buy", cumMatchSize := 4/100, size := 10/100
    price := 60000 }

/-- Witness for C1 at the concrete partial fill. -/
theorem taker_size_equals_maker_filled_witness :
    ∃ o, executeTradeHedge false 10000 100 59990 60010
        (handleEdgexOrderUpdate c1bot c1update).om = some o ∧
      o.quantity = c1update.cumMatchSize ∧
      o.base_amount_raw = pyInt (c1update.cumMatchSize * 10000) ∧
      (c1update.cumMatchSize ≠ c1update.size → o.quantity ≠ c1update.size) :=
  taker_size_equals_maker_filled c1bot c1update 10000 100 59990 60010 rfl rfl
    (Or.inl rfl) (by norm_num [c1update]) rfl

/-- C6.  In both bot variants, a maker-venue order update with status
`CANCELED` and strictly positive cumulative fill is handled exactly as a
`FILLED` update with the same fields: the handler outputs (position update,
trade logging and hedge arming included) are equal. -/
theorem canceled_with_fill_is_filled (bot : EdgexBotState) (sbot : StandxBotState)
    (u : EdgexOrderUpdate) (v : StandxOrderUpdate)
    (hu : u.status = "CANCELED") (hf : 0 < u.cumMatchSize)
    (hv : v.status = "CANCELED") (hg : 0 < v.fill_qty) :
    handleEdgexOrderUpdate bot u
        = handleEdgexOrderUpdate bot { u with status := "FILLED" } ∧
    handleStandxOrderUpdate sbot v
        = handleStandxOrderUpdate sbot { v with status := "FILLED" } := by
  constructor
  · unfold handleEdgexOrderUpdate
    simp [hu, hf]
  · unfold handleStandxOrderUpdate
    simp [hv, hg]

/-- Concrete StandX bot state with an active ticket. -/
def c6sbot : StandxBotState :=
  { standx_symbol := "BTC-USD"
    current_order_id := some "ord-77"
    om := { edgex_order_status := some "OPEN", edgex_client_order_id := ""
            current_lighter_side := none, current_lighter_quantity := none
            current_lighter_price := none, waiting_for_lighter_fill := false
            lighter_order_filled := false, order_execution_complete := false }
    standx_position := 0, lighter_position := 0, trade_rows := [] }

/-- A cancel-with-fill frame on EdgeX: canceled after 0.03 filled. -/
def c6update : EdgexOrderUpdate :=
  { contractId := "10000001", clientOrderId := "1700000000000", id := "43"
    status := "CANCELED", side := "sell", cumMatchSize := 3/100, size := 10/100
    price := 60010 }

/-- A cancel-with-fill frame on StandX: canceled after 0.02 filled. -/
def c6supdate : StandxOrderUpdate :=
  { contract_id := some "BTC-USD", order_id := "ord-77", status := "CANCELED"
    side := "buy", fill_qty := 2/100, qty := 10/100, price := 60005 }

/-- Witness for C6 at the two concrete cancel-with-fill frames. -/
theorem canceled_with_fill_is_filled_witness :
    handleEdgexOrderUpdate c1bot c6update
        = handleEdgexOrderUpdate c1bot { c6update with status := "FILLED" } ∧
    handleStandxOrderUpdate c6sbot c6supdate
        = handleStandxOrderUpdate c6sbot { c6supdate with status := "FILLED" } :=
  canceled_with_fill_is_filled c1bot c6sbot c6update c6supdate rfl
    (by norm_num [c6update]) rfl (by norm_num [c6supdate])

/-- An EdgeX bot whose active ticket is client order id C2. -/
def c7bot : EdgexBotState :=
  { edgex_contract_id := "10000001"
    om := { edgex_order_status := none, edgex_client_order_id := "C2"
            current_lighter_side := none, current_lighter_quantity := none
            current_lighter_price := none, waiting_for_lighter_fill := false
            lighter_order_filled := false, order_execution_complete := false }
    edgex_position := 0, lighter_position := 0
    position_open_time := none, trade_rows := [] }

/-- A stale fill of 0.05 for the earlier ticket C1. -/
def c7update : EdgexOrderUpdate :=
  { contractId := "10000001", clientOrderId := "C1", id := "41"
    status := "FILLED", side := "buy", cumMatchSize := 5/100, size := 5/100
    price := 60000 }

/-- C7 counterexample.  In the EdgeX variant a stale-ticket fill is discarded
wholesale: the handler returns the state unchanged, so the filled 0.05 is
never applied to the cached position, contradicting the claim that stale
updates are applied to position tracking in both variants. -/
theorem stale_update_counterexample :
    handleEdgexOrderUpdate c7bot c7update = c7bot ∧
    (handleEdgexOrderUpdate c7bot c7update).edgex_position
      ≠ c7bot.edgex_position + c7update.cumMatchSize := by
  have h : handleEdgexOrderUpdate c7bot c7update = c7bot := by
    unfold handleEdgexOrderUpdate
    rw [if_neg (by simp [c7update, c7bot]), if_pos (by simp [c7update, c7bot])]
  refine ⟨h, ?_⟩
  rw [h]
  norm_num [c7bot, c7update]

/-- C7 amended.  A stale-ticket fill never arms a new hedge in either variant:
the EdgeX handler ignores updates whose client order id differs from the
active ticket entirely (position tracking included), while the StandX handler
applies the filled size to the cached position but leaves the hedge flag and
the trade log untouched. -/
theorem stale_update_never_hedges (bot : EdgexBotState) (u : EdgexOrderUpdate)
    (sbot : StandxBotState) (v : StandxOrderUpdate)
    (hk : u.clientOrderId ≠ bot.om.edgex_client_order_id)
    (hcur : orderIdTruthy sbot.current_order_id = true)
    (hvstale : some v.order_id ≠ sbot.current_order_id)
    (hvstat : v.status = "FILLED") (hvf : 0 < v.fill_qty)
    (hvc : v.contract_id = none ∨ v.contract_id = some sbot.standx_symbol) :
    handleEdgexOrderUpdate bot u = bot ∧
    (handleStandxOrderUpdate sbot v).standx_position
      = sbot.standx_position + (if v.side = "buy" then v.fill_qty else -v.fill_qty) ∧
    (handleStandxOrderUpdate sbot v).om.waiting_for_lighter_fill
      = sbot.om.waiting_for_lighter_fill ∧
    (handleStandxOrderUpdate sbot v).trade_rows = sbot.trade_rows := by
  refine ⟨?_, ?_⟩
  · unfold handleEdgexOrderUpdate
    by_cases hc : u.contractId ≠ bot.edgex_contract_id
    · rw [if_pos hc]
    · rw [if_neg hc, if_pos hk]
  · unfold handleStandxOrderUpdate
    have hstale : orderIdTruthy sbot.current_order_id = true ∧
        some v.order_id ≠ sbot.current_order_id := ⟨hcur, hvstale⟩
    rcases hvc with hvc | hvc <;>
      by_cases hside : v.side = "buy" <;>
      simp [hvc, hvstat, hvf, hside, hcur, hvstale, sub_eq_add_neg]

/-- A StandX bot whose active ticket is ord-77. -/
def c7sbot : StandxBotState :=
  { standx_symbol := "BTC-USD"
    current_order_id := some "ord-77"
    om := { edgex_order_status := some "OPEN", edgex_client_order_id := ""
            current_lighter_side := none, current_lighter_quantity := none
            current_lighter_price := none, waiting_for_lighter_fill := false
            lighter_order_filled := false, order_execution_complete := false }
    standx_position := 0, lighter_position := 0, trade_rows := [] }

/-- A stale StandX fill of 0.05 for the earlier ticket old-1. -/
def c7supdate : StandxOrderUpdate :=
  { contract_id := some "BTC-USD", order_id := "old-1", status := "FILLED"
    side := "buy", fill_qty := 5/100, qty := 5/100, price := 60000 }

/-- Witness for the amended C7 at concrete stale updates on both variants. -/
theorem stale_update_never_hedges_witness :
    handleEdgexOrderUpdate c7bot c7update = c7bot ∧
    (handleStandxOrderUpdate c7sbot c7supdate).standx_position
      = c7sbot.standx_position
        + (if c7supdate.side = "buy" then c7supdate.fill_qty else -c7supdate.fill_qty) ∧
    (handleStandxOrderUpdate c7sbot c7supdate).om.waiting_for_lighter_fill
      = c7sbot.om.waiting_for_lighter_fill ∧
    (handleStandxOrderUpdate c7sbot c7supdate).trade_rows = c7sbot.trade_rows :=
  stale_update_never_hedges c7bot c7update c7sbot c7supdate
    (by simp [c7bot, c7update]) rfl (by simp [c7sbot, c7supdate]) rfl
    (by norm_num [c7supdate]) (Or.inr rfl)

/-- C2 counterexample.  The claim covers both bot variants, but the StandX
trading loop performs no naked-position check: with both cached positions at
+0.5 (same sign, far beyond the 0.01 tolerance) and a long spread above the
threshold, the iteration still dispatches a long trade instead of halting. -/
theorem naked_position_standx_counterexample :
    ((1/100 : ℚ) < 1/2 ∧ (1/100 : ℚ) < 1/2) ∧
    standxLoopAction (1/2) (1/2) 100 101 120 119 10 10 1
      = .dispatchLong 101 120 := by
  refine ⟨by norm_num, ?_⟩
  norm_num [standxLoopAction]

/-- C2 amended.  The EdgeX variant honours the halt: whenever the cached
positions on the two venues are same-signed with each side beyond the 0.01
tolerance, the loop iteration takes the naked-halt branch (no trade signal,
sleep 60 s, re-check on the next iteration) whatever the books, thresholds
and position limit say.  The StandX variant has no such check: in a naked
state it dispatches a long trade as soon as the spread clears the threshold
and the position limit allows. -/
theorem naked_position_halts_edgex (edgex_pos lighter_pos ex_bid ex_ask lt_bid lt_ask
    lth sth cm mcs maxp : ℚ)
    (hnaked : (edgex_pos < -(1/100) ∧ lighter_pos < -(1/100)) ∨
              ((1/100 : ℚ) < edgex_pos ∧ (1/100 : ℚ) < lighter_pos)) :
    edgexLoopAction edgex_pos lighter_pos ex_bid ex_ask lt_bid lt_ask
        lth sth cm mcs maxp = .nakedHalt ∧
    ∀ sp lp bid2 ask2 lbid2 lask2 lth2 sth2 maxp2 : ℚ,
      0 < bid2 → 0 < ask2 → lbid2 ≠ 0 → lth2 < lbid2 - bid2 → sp < maxp2 →
      standxLoopAction sp lp bid2 ask2 lbid2 lask2 lth2 sth2 maxp2
        = .dispatchLong ask2 lbid2 := by
  constructor
  · have habs : (1/100 : ℚ) < |edgex_pos + lighter_pos| := by
      rcases hnaked with ⟨h1, h2⟩ | ⟨h1, h2⟩
      · exact lt_of_lt_of_le (by linarith) (neg_le_abs _)
      · exact lt_of_lt_of_le (by linarith) (le_abs_self _)
    unfold edgexLoopAction
    rw [if_pos ⟨habs, hnaked⟩]
  · intro sp lp bid2 ask2 lbid2 lask2 lth2 sth2 maxp2 hb ha hlb hsp hcap
    unfold standxLoopAction
    rw [if_neg (by push_neg; exact ⟨hb, ha⟩)]
    have hb0 : bid2 ≠ 0 := ne_of_gt hb
    rw [if_pos ⟨hlb, hb0, by rw [if_pos ⟨hlb, hb0⟩]; exact hsp⟩, if_pos hcap]

/-- Witness for the amended C2 at a concrete naked state. -/
theorem naked_position_halts_edgex_witness :
    edgexLoopAction (1/2) (1/2) 100 101 120 119 10 10 (1/10) (15/100) 1
        = .nakedHalt ∧
    ∀ sp lp bid2 ask2 lbid2 lask2 lth2 sth2 maxp2 : ℚ,
      0 < bid2 → 0 < ask2 → lbid2 ≠ 0 → lth2 < lbid2 - bid2 → sp < maxp2 →
      standxLoopAction sp lp bid2 ask2 lbid2 lask2 lth2 sth2 maxp2
        = .dispatchLong ask2 lbid2 :=
  naked_position_halts_edgex (1/2) (1/2) 100 101 120 119 10 10 (1/10) (15/100) 1
    (Or.inr (by norm_num))

lemma getLighterPositionGo_err (ticker : String) (cached : ℚ)
    (rs : ℕ → LighterAttempt) (attempts fuel sleepAcc : ℕ)
    (h : isErrAttempt (rs attempts) = true) :
    getLighterPositionGo ticker cached rs attempts (fuel + 1) sleepAcc
      = getLighterPositionGo ticker cached rs (attempts + 1) fuel (sleepAcc + 1) := by
  cases hx : rs attempts <;>
    simp [isErrAttempt, hx] at h <;>
    simp [getLighterPositionGo, hx]

lemma getLighterPositionGo_all_err (ticker : String) (cached : ℚ)
    (rs : ℕ → LighterAttempt) :
    ∀ fuel attempts sleepAcc : ℕ,
      (∀ i, attempts ≤ i → i < attempts + fuel → isErrAttempt (rs i) = true) →
      getLighterPositionGo ticker cached rs attempts fuel sleepAcc
        = (.exited 1, sleepAcc + fuel) := by
  intro fuel
  induction fuel with
  | zero => intro attempts sleepAcc _; rfl
  | succ n ih =>
      intro attempts sleepAcc h
      rw [getLighterPositionGo_err ticker cached rs attempts n sleepAcc
            (h attempts (le_refl _) (by omega)),
          ih (attempts + 1) (sleepAcc + 1) (fun i h1 h2 => h i (by omega) (by omega))]
      have : sleepAcc + 1 + n = sleepAcc + (n + 1) := by omega
      rw [this]

lemma getLighterPosition_all_err (ticker : String) (cached : ℚ)
    (rs : ℕ → LighterAttempt) (h : ∀ i, i < 10 → isErrAttempt (rs i) = true) :
    getLighterPosition ticker cached rs = (.exited 1, 10) := by
  unfold getLighterPosition
  rw [getLighterPositionGo_all_err ticker cached rs 10 0 0
        (fun i _ h2 => h i (by omega))]

/-- C3 counterexample.  A failure inside the trade pipeline does stop the
engine: an exception while placing the maker order makes
`_execute_long_trade` set the stop flag (triggering the shutdown path); a
cached net position beyond twice the order quantity makes it call
`sys.exit(1)`; and ten consecutive failed Lighter position queries make
`get_lighter_position` call `sys.exit(1)` — all contradicting the claim that
only operator signals and naked positions stop the engine. -/
theorem pipeline_failure_counterexample :
    executeLongTradeOutcome false 0 (1/100) false (.error "DEADLINE_EXCEEDED")
      = .setStopFlag ∧
    executeLongTradeOutcome false (5/100) (1/100) false (.ok true)
      = .exitProcess 1 ∧
    (getLighterPosition "BTC" (3/100) (fun _ => .netErr)).1 = .exited 1 := by
  refine ⟨?_, ?_, ?_⟩
  · norm_num [executeLongTradeOutcome]
  · unfold executeLongTradeOutcome
    have habs : |(5/100 : ℚ)| = 5/100 := by
      rw [abs_of_pos]; norm_num
    rw [if_neg (by simp), if_pos (by rw [habs]; norm_num)]
  · rfl

/-- C3 amended.  Failures inside a trade pipeline are caught (the handler
always reaches one of the four modelled outcomes, never an unhandled
exception), but they stop the engine rather than being localized: a maker
placement exception sets the stop flag, a cached net imbalance above twice
the order quantity exits the process with code 1, and ten consecutive
position-query failures (one second apart) exit the process with code 1. -/
theorem pipeline_failure_stops_engine (net q : ℚ) (e : String)
    (hq : |net| ≤ q * 2) :
    executeLongTradeOutcome false net q false (.error e) = .setStopFlag ∧
    (∀ net2 : ℚ, q * 2 < |net2| → ∀ mk : Except String Bool,
      executeLongTradeOutcome false net2 q false mk = .exitProcess 1) ∧
    (∀ ticker cached rs, (∀ i, i < 10 → isErrAttempt (rs i) = true) →
      getLighterPosition ticker cached rs = (.exited 1, 10)) := by
  refine ⟨?_, ?_, ?_⟩
  · unfold executeLongTradeOutcome
    rw [if_neg (by simp), if_neg (not_lt.mpr hq), if_neg (by simp)]
  · intro net2 h2 mk
    unfold executeLongTradeOutcome
    rw [if_neg (by simp), if_pos h2]
  · intro ticker cached rs h
    exact getLighterPosition_all_err ticker cached rs h

/-- Witness for the amended C3 at concrete inputs. -/
theorem pipeline_failure_stops_engine_witness :
    executeLongTradeOutcome false 0 (1/100) false (.error "DEADLINE_EXCEEDED")
      = .setStopFlag ∧
    (∀ net2 : ℚ, (1/100 : ℚ) * 2 < |net2| → ∀ mk : Except String Bool,
      executeLongTradeOutcome false net2 (1/100) false mk = .exitProcess 1) ∧
    (∀ ticker cached rs, (∀ i, i < 10 → isErrAttempt (rs i) = true) →
      getLighterPosition ticker cached rs = (.exited 1, 10)) :=
  pipeline_failure_stops_engine 0 (1/100) "DEADLINE_EXCEEDED" (by norm_num)

/-- The floor-to-tick rounding described by the specification for Buy
orders (modelled from the spec's words for comparison with the source's
`round_to_tick`). -/
def specFloorToTick (tick price : ℚ) : ℚ := (⌊price / tick⌋ : ℚ) * tick

/-- C8 counterexample.  With tick 0.1 and best ask 0.46, the Buy maker price
0.36 rounds UP to 0.40 under the source's `quantize` (nearest, not floor),
while floor-to-tick gives 0.30; and the two ties 0.35 and 0.25 round to 0.40
and 0.20 respectively — ties to the even multiple, i.e. banker's rounding is
exactly what `round_to_tick` uses. -/
theorem round_to_tick_counterexample :
    placeBboOrderPrice (1/10) 0 (46/100) "buy" = 2/5 ∧
    specFloorToTick (1/10) (46/100 - 1/10) = 3/10 ∧
    (2/5 : ℚ) ≠ 3/10 ∧
    round_to_tick (some (1/10)) (35/100) = 2/5 ∧
    round_to_tick (some (1/10)) (25/100) = 1/5 := by
  refine ⟨?_, ?_, by norm_num, ?_, ?_⟩ <;>
    norm_num [placeBboOrderPrice, specFloorToTick, round_to_tick, roundHalfEven,
      Int.floor_eq_iff]

lemma roundHalfEven_bounds (q : ℚ) : |(roundHalfEven q : ℚ) - q| ≤ 1/2 := by
  have h1 : (⌊q⌋ : ℚ) ≤ q := Int.floor_le q
  have h2 : q < ⌊q⌋ + 1 := Int.lt_floor_add_one q
  simp only [roundHalfEven]
  by_cases hc : q - (⌊q⌋ : ℚ) < 1/2
  · rw [if_pos hc, abs_le]
    constructor <;> linarith
  · by_cases hc2 : (1/2 : ℚ) < q - (⌊q⌋ : ℚ)
    · rw [if_neg hc, if_pos hc2, abs_le]
      push_cast
      constructor <;> linarith
    · rw [if_neg hc, if_neg hc2]
      have heq : q - (⌊q⌋ : ℚ) = 1/2 := le_antisymm (not_lt.mp hc2) (not_lt.mp hc)
      by_cases hev : ⌊q⌋ % 2 = 0
      · rw [if_pos hev, abs_le]
        constructor <;> linarith
      · rw [if_neg hev, abs_le]
        push_cast
        constructor <;> linarith

lemma round_to_tick_close (t p : ℚ) (ht : 0 < t) :
    |round_to_tick (some t) p - p| ≤ t / 2 := by
  unfold round_to_tick
  have h := roundHalfEven_bounds (p / t)
  have ht0 : t ≠ 0 := ne_of_gt ht
  have he : (roundHalfEven (p / t) : ℚ) * t - p = ((roundHalfEven (p / t) : ℚ) - p / t) * t := by
    field_simp
  rw [he, abs_mul, abs_of_pos ht]
  calc |(roundHalfEven (p / t) : ℚ) - p / t| * t
      ≤ (1/2) * t := mul_le_mul_of_nonneg_right h (le_of_lt ht)
    _ = t / 2 := by ring

/-- C8 amended.  `round_to_tick` rounds to the NEAREST tick multiple with
ties to the even multiple (the Python `quantize` default, i.e. banker's
rounding) for Buy and Sell alike — not floor/ceil toward the passive side.
Because the pre-rounding maker price sits one full tick inside the book and
the rounding moves it by at most half a tick, the rounded Buy price still
stays strictly below the ask and the rounded Sell price strictly above the
bid, so the post-only order never crosses unintentionally. -/
theorem round_to_tick_half_even_no_cross (t bid ask : ℚ) (ht : 0 < t) :
    placeBboOrderPrice t bid ask "buy" < ask ∧
    bid < placeBboOrderPrice t bid ask "sell" ∧
    (∀ p, round_to_tick (some t) p = (roundHalfEven (p / t) : ℚ) * t) := by
  refine ⟨?_, ?_, fun p => rfl⟩
  · have h := abs_le.mp (round_to_tick_close t (ask - t) ht)
    have : placeBboOrderPrice t bid ask "buy" = round_to_tick (some t) (ask - t) := by
      simp [placeBboOrderPrice]
    rw [this]
    linarith [h.2]
  · have h := abs_le.mp (round_to_tick_close t (bid + t) ht)
    have : placeBboOrderPrice t bid ask "sell" = round_to_tick (some t) (bid + t) := by
      simp [placeBboOrderPrice]
    rw [this]
    linarith [h.1]

/-- Witness for the amended C8 at tick 0.1 on a 60000/60001 book. -/
theorem round_to_tick_half_even_no_cross_witness :
    placeBboOrderPrice (1/10) 60000 60001 "buy" < 60001 ∧
    (60000 : ℚ) < placeBboOrderPrice (1/10) 60000 60001 "sell" ∧
    (∀ p, round_to_tick (some (1/10)) p = (roundHalfEven (p / (1/10)) : ℚ) * (1/10)) :=
  round_to_tick_half_even_no_cross (1/10) 60000 60001 (by norm_num)

/-- C9.  Evaluation at the failing configuration: with `fill_timeout`
configured to 10 s and the maker order still unfilled at 6 s elapsed, the
EdgeX maker leg already fires its cancel (its timeout test is the literal 5
in `place_edgex_post_only_order`, independent of the configured value —
third conjunct), while the StandX leg, which does consult `fill_timeout`,
correctly does not fire yet. -/
theorem fill_timeout_hardcoded_evaluation :
    edgexMakerTimeoutFires 10 6 = true ∧
    standxMakerTimeoutFires 10 6 = false ∧
    (∀ ft elapsed : ℚ, edgexMakerTimeoutFires ft elapsed
      = edgexMakerTimeoutFires 5 elapsed) := by
  refine ⟨?_, ?_, fun ft elapsed => rfl⟩
  · simp only [edgexMakerTimeoutFires, decide_eq_true_eq]
    norm_num
  · simp only [standxMakerTimeoutFires, decide_eq_false_iff_not, not_lt]
    norm_num

/-- C10.  Error paths of `get_lighter_position`: an empty body or a response
without accounts on the first attempt returns the cached position (and the
method assigns no tracker field, so no state is mutated); a first-attempt
position list without the ticker returns 0; and ten consecutive attempts
failing with request, JSON or other errors — each followed by the one-second
`finally` sleep — terminate the process with exit code 1. -/
theorem get_lighter_position_error_paths (ticker : String) (cached : ℚ)
    (rs : ℕ → LighterAttempt) (ps : List (String × ℚ × ℤ)) :
    (rs 0 = .emptyBody ∨ rs 0 = .noAccounts →
      getLighterPosition ticker cached rs = (.value cached, 1)) ∧
    (rs 0 = .accounts ps → lookupPosition ticker ps = none →
      getLighterPosition ticker cached rs = (.value 0, 1)) ∧
    ((∀ i, i < 10 → isErrAttempt (rs i) = true) →
      getLighterPosition ticker cached rs = (.exited 1, 10)) := by
  refine ⟨?_, ?_, ?_⟩
  · rintro (h | h) <;> simp [getLighterPosition, getLighterPositionGo, h]
  · intro h hl
    simp [getLighterPosition, getLighterPositionGo, h, hl]
  · exact getLighterPosition_all_err ticker cached rs

/-- Witness for C10 at three concrete response sequences. -/
theorem get_lighter_position_error_paths_witness :
    getLighterPosition "BTC" (7/100) (fun _ => .emptyBody) = (.value (7/100), 1) ∧
    getLighterPosition "BTC" (7/100) (fun _ => .accounts [("ETH", 2, 1)])
      = (.value 0, 1) ∧
    getLighterPosition "BTC" (7/100) (fun _ => .netErr) = (.exited 1, 10) := by
  refine ⟨?_, ?_, ?_⟩
  · exact (get_lighter_position_error_paths "BTC" (7/100) (fun _ => .emptyBody) []).1
      (Or.inl rfl)
  · exact (get_lighter_position_error_paths "BTC" (7/100)
      (fun _ => .accounts [("ETH", 2, 1)]) [("ETH", 2, 1)]).2.1 rfl rfl
  · exact (get_lighter_position_error_paths "BTC" (7/100) (fun _ => .netErr) []).2.2
      (fun i _ => rfl)

end CrossArb
